import Mathlib

/-!
Verification development for the `backendPelis` movie/comments HTTP API.

The repository has two source files: `libs/mongo.ts`, a thin facade over the
MongoDB driver (connection manager plus generic collection operations), and
the route-handler file (`obtenerPeliculasPorTitulo`, `obtenerDetalle`,
`obtenerComentarios`, `insertarComentarios` plus the four Express routes).

The embedding below models:
 - BSON-ish values (`BVal`) restricted to the value shapes this system
   actually stores: strings, numbers, ObjectIds, dates, string arrays;
 - documents as association lists of field name to value;
 - the MongoDB behaviors the facade delegates to: equality filters, the
   `$regex` operator (modelled for the fragment of patterns the endpoint can
   build: literal characters plus the `.` wildcard; flags are the set of
   characters of the `$options` string), inclusion projections with the
   driver's default retention of `_id`, sort/skip/limit cursor options
   (applied in the server's sort-then-skip-then-limit order regardless of the
   order the setters were invoked in), and implicit collection creation;
 - the module-level mutable state of `libs/mongo.ts` (`DB`, `clientDB`) as an
   explicit `ModuleState` threaded through the operations, with driver
   nondeterminism (does `MongoClient.connect` succeed?) as an explicit
   `ConnectOutcome` argument and an `establishCount` field counting
   underlying `MongoClient.connect` invocations;
 - `new ObjectId()` / `new Date()` at insertion time as explicit `freshId` /
   `now` arguments to the handler.
-/

set_option maxRecDepth 4000

namespace Pelis

/-- BSON-like value, restricted to the shapes stored by this system.
`oid` models a 12-byte ObjectId as its numeric value; `date` models a
timestamp; `strArr` models the `directors` string array. -/
inductive BVal where
  | str : String → BVal
  | num : Int → BVal
  | oid : Nat → BVal
  | date : Nat → BVal
  | strArr : List String → BVal
  deriving DecidableEq, Repr

/-- A document: an association list from field name to value, in field order. -/
abbrev Doc := List (String × BVal)

/-- First value stored under field `f` of document `d`, if any. -/
def getField : Doc → String → Option BVal
  | [], _ => none
  | (k, v) :: rest, f => if k == f then some v else getField rest f

/-- Decidable equality for `Except` results, used to evaluate concrete runs. -/
instance {ε α : Type} [DecidableEq ε] [DecidableEq α] : DecidableEq (Except ε α) := fun a b =>
  match a, b with
  | .error e, .error f =>
    if h : e = f then .isTrue (by rw [h]) else .isFalse (fun hc => h (by injection hc))
  | .ok x, .ok y =>
    if h : x = y then .isTrue (by rw [h]) else .isFalse (fun hc => h (by injection hc))
  | .error _, .ok _ => .isFalse (fun hc => Except.noConfusion hc)
  | .ok _, .error _ => .isFalse (fun hc => Except.noConfusion hc)

/-! ## Regex model

The title-search endpoint sends `{ $regex: title, $options: "$i" }` to the
store. We model the pattern fragment such raw titles exercise: every
character matches literally except `.`, which matches any character; a
pattern matches a string if it matches at some position (MongoDB `$regex` is
unanchored). The option flags are modelled as the set of characters of the
options string, so `"$i"` carries the case-insensitivity flag `i`. -/

/-- Does pattern character `p` match subject character `c`
(case-insensitively when `ci` is set)? `.` matches anything. -/
def charMatch (ci : Bool) (p c : Char) : Bool :=
  p == '.' || (if ci then p.toLower == c.toLower else p == c)

/-- Does the pattern match a prefix of the subject? -/
def matchHere (ci : Bool) : List Char → List Char → Bool
  | [], _ => true
  | _ :: _, [] => false
  | p :: ps, c :: cs => charMatch ci p c && matchHere ci ps cs

/-- All suffixes of a list, longest first (including the empty suffix). -/
def suffixes : List Char → List (List Char)
  | [] => [[]]
  | c :: cs => (c :: cs) :: suffixes cs

/-- Unanchored regex match of `pattern` against `s` under `options` flags;
the flag set is the set of characters of the options string (`"$i"` carries
`i`). -/
def regexMatch (pattern options s : String) : Bool :=
  let ci := options.data.contains 'i'
  (suffixes s.data).any (matchHere ci pattern.data)

/-- Characters of `s`, lower-cased. -/
def lowerList (s : String) : List Char := s.data.map Char.toLower

/-- Case-insensitive containment of `t` in `s` as a literal substring.
This is the reading the specification text uses for the title search. -/
def containsCI (s t : String) : Bool :=
  (suffixes (lowerList s)).any (fun suf => (lowerList t).isPrefixOf suf)

/-! ## Queries, projections, sorting -/

/-- A per-field filter condition: exact value, or a `$regex`/`$options` pair. -/
inductive QueryCond where
  | eqVal : BVal → QueryCond
  | regex : String → String → QueryCond
  deriving DecidableEq, Repr

/-- A query document: conjunction of per-field conditions. -/
abbrev Query := List (String × QueryCond)

/-- Does the condition hold of the (possibly absent) field value? -/
def condMatches : QueryCond → Option BVal → Bool
  | .eqVal v, w => w == some v
  | .regex p o, w =>
    match w with
    | some (.str s) => regexMatch p o s
    | _ => false

/-- Does document `d` satisfy every condition of query `q`? -/
def queryMatches (q : Query) (d : Doc) : Bool :=
  q.all (fun p => condMatches p.2 (getField d p.1))

/-- Should field `k` be kept by inclusion projection `proj`?
MongoDB keeps `_id` by default unless the projection carries `_id: 0`. -/
def keepField (proj : List (String × Int)) (k : String) : Bool :=
  (k == "_id" && !(proj.any (fun q => q.1 == "_id" && q.2 == 0)))
    || proj.any (fun q => q.1 == k && !(q.2 == 0))

/-- Apply an inclusion projection; the empty projection returns all fields.
All projections built by this repository are inclusion projections. -/
def applyProjection (proj : List (String × Int)) (d : Doc) : Doc :=
  if proj.isEmpty then d else d.filter (fun p => keepField proj p.1)

/-- Restriction of a document to exactly the named fields; this is the
reading used by the specification sentences that list an output's fields. -/
def onlyFields (fields : List String) (d : Doc) : Doc :=
  d.filter (fun p => fields.contains p.1)

/-- Rank of a value's type in the store's cross-type sort order. -/
def BVal.rank : BVal → Nat
  | .num _ => 0
  | .str _ => 1
  | .strArr _ => 2
  | .oid _ => 3
  | .date _ => 4

/-- Lexicographic comparison of string lists. -/
def cmpStrList : List String → List String → Ordering
  | [], [] => .eq
  | [], _ :: _ => .lt
  | _ :: _, [] => .gt
  | a :: as, b :: bs =>
    match compare a b with
    | .eq => cmpStrList as bs
    | o => o

/-- Comparison of values: by type rank across types, natural order within. -/
def BVal.cmp : BVal → BVal → Ordering
  | .num a, .num b => compare a b
  | .str a, .str b => compare a b
  | .strArr a, .strArr b => cmpStrList a b
  | .oid a, .oid b => compare a b
  | .date a, .date b => compare a b
  | a, b => compare a.rank b.rank

/-- Comparison of optional field values; a missing field sorts lowest. -/
def optCmp : Option BVal → Option BVal → Ordering
  | none, none => .eq
  | none, some _ => .lt
  | some _, none => .gt
  | some a, some b => a.cmp b

/-- Compare two documents under a sort specification
(field name, direction; negative direction means descending). -/
def docCmp : List (String × Int) → Doc → Doc → Ordering
  | [], _, _ => .eq
  | (f, dir) :: rest, a, b =>
    let c := optCmp (getField a f) (getField b f)
    let c := if dir < 0 then c.swap else c
    match c with
    | .eq => docCmp rest a b
    | o => o

/-- Non-strict document order under a sort specification. -/
def docLe (spec : List (String × Int)) (a b : Doc) : Bool :=
  !(docCmp spec a b == .gt)

/-- Stable insertion into a sorted list. -/
def insertSorted (le : Doc → Doc → Bool) (d : Doc) : List Doc → List Doc
  | [] => [d]
  | x :: xs => if le x d then x :: insertSorted le d xs else d :: x :: xs

/-- Sort documents per the sort specification; the empty specification (the
facade's default, and MongoDB `sort({})`) keeps natural order. -/
def sortDocs (spec : List (String × Int)) (docs : List Doc) : List Doc :=
  if spec.isEmpty then docs else docs.foldr (insertSorted (docLe spec)) []

/-! ## The store and the module state of `libs/mongo.ts` -/

/-- The connected database: named collections holding document lists. -/
structure Database where
  colls : List (String × List Doc)
  deriving DecidableEq, Repr

/-- Documents of collection `c` (a collection that was never written is empty:
MongoDB creates collections implicitly). -/
def Database.getColl (db : Database) (c : String) : List Doc :=
  match db.colls.find? (fun p => p.1 == c) with
  | some p => p.2
  | none => []

/-- Replace the contents of collection `c`. -/
def Database.putColl (db : Database) (c : String) (docs : List Doc) : Database :=
  ⟨(c, docs) :: db.colls.filter (fun p => !(p.1 == c))⟩

/-- Append one document to collection `c`. -/
def Database.insertInto (db : Database) (c : String) (d : Doc) : Database :=
  db.putColl c (db.getColl c ++ [d])

/-- Errors surfaced by the facade and handlers.
`notConnected` is the `Promise.reject("Not connected")` guard;
`connectionError` is a rejected `Connect`; `typeError` is the uncaught
JavaScript TypeError raised by a property access on `undefined`;
`malformedId` is the BSONTypeError thrown by `new ObjectId(badString)`. -/
inductive MErr where
  | notConnected
  | connectionError
  | typeError
  | malformedId
  deriving DecidableEq, Repr

/-- The module-level mutable state of `libs/mongo.ts`: the `DB` handle, the
`clientDB` handle (with whether the underlying client has been closed), and
a count of underlying `MongoClient.connect` invocations. -/
structure ModuleState where
  DB : Option Database
  clientUp : Bool
  clientClosed : Bool
  establishCount : Nat
  deriving DecidableEq, Repr

/-- The `{uri, db, options}` configuration consumed by `Connect`. -/
structure Config where
  uri : String
  db : String
  deriving DecidableEq, Repr

/-- Environment outcome of one underlying `MongoClient.connect` call:
`okC db` = the driver returned a client whose `client.db(conf.db)` is `db`;
`errC` = the driver errored or returned no client (rejected before
`clientDB` is assigned); `badDb` = the client was assigned but
`client.db(conf.db)` threw, so `DB` stays unset. -/
inductive ConnectOutcome where
  | okC : Database → ConnectOutcome
  | errC : ConnectOutcome
  | badDb : ConnectOutcome
  deriving DecidableEq, Repr

/-- `Connect(conf)`: returns immediately when `DB` is already set, otherwise
performs one underlying connection establishment whose result is `co`. -/
def Connect (conf : Config) (st : ModuleState) (co : ConnectOutcome) :
    ModuleState × Except MErr Unit :=
  if st.DB.isSome then (st, .ok ())
  else
    match co with
    | .okC db =>
      ({ st with DB := some db, clientUp := true, clientClosed := false,
                 establishCount := st.establishCount + 1 }, .ok ())
    | .errC =>
      ({ st with establishCount := st.establishCount + 1 }, .error .connectionError)
    | .badDb =>
      ({ st with clientUp := true, establishCount := st.establishCount + 1 },
       .error .connectionError)

/-- `Close()`: rejects when no client is assigned; otherwise closes the
client. Neither `DB` nor `clientDB` is cleared. -/
def Close (st : ModuleState) : ModuleState × Except MErr Unit :=
  if st.clientUp then ({ st with clientClosed := true }, .ok ())
  else (st, .error .notConnected)

/-- `Collection(name)`: rejects `"Not connected"` when `DB` is unset,
otherwise yields the collection's documents. -/
def Collection (st : ModuleState) (collectionName : String) : Except MErr (List Doc) :=
  match st.DB with
  | none => .error .notConnected
  | some db => .ok (db.getColl collectionName)

/-- The facade's `limit` argument: a number or a boolean (`true` means 1). -/
inductive LimitArg where
  | bool : Bool → LimitArg
  | num : Nat → LimitArg
  deriving DecidableEq, Repr

/-- JavaScript truthiness of the limit argument (`if (limit)`). -/
def LimitArg.truthy : LimitArg → Bool
  | .bool b => b
  | .num n => n != 0

/-- The value passed to `cursor.limit`: `(limit == true) ? 1 : limit`, with
JavaScript loose equality (`1 == true`). -/
def LimitArg.effective : LimitArg → Nat
  | .bool _ => 1
  | .num n => if n == 1 then 1 else n

/-- `FindCursor`: builds the cursor and sets projection, sort, limit and skip
(each setter guarded by JavaScript truthiness of its argument; the default
`{}` projection/sort are truthy no-ops, numeric 0 is falsy). The server
applies sort, then skip, then limit, irrespective of setter order, and the
projection to each returned document. -/
def FindCursor (st : ModuleState) (collectionName : String) (query : Query)
    (projection : List (String × Int) := []) (sorting : List (String × Int) := [])
    (limit : LimitArg := .bool false) (skip : Nat := 0) :
    Except MErr (List Doc) :=
  match Collection st collectionName with
  | .error e => .error e
  | .ok docs =>
    let matched := docs.filter (fun d => queryMatches query d)
    let afterSkip := (sortDocs sorting matched).drop skip
    let limited := if limit.truthy then afterSkip.take limit.effective else afterSkip
    .ok (limited.map (applyProjection projection))

/-- Result shape of `Find`: `limit === true` collapses the array to its first
element (or `undefined`), every other limit returns the array. -/
inductive FindResult where
  | single : Option Doc → FindResult
  | list : List Doc → FindResult
  deriving DecidableEq, Repr

/-- View a `Find` result the way the handlers index it. -/
def FindResult.asList : FindResult → List Doc
  | .list ds => ds
  | .single (some d) => [d]
  | .single none => []

/-- `Find`: materializes the cursor; with `limit === true` (strict equality,
so only the boolean) returns `result[0]`, otherwise the whole array. -/
def Find (st : ModuleState) (collectionName : String) (query : Query)
    (projection : List (String × Int) := []) (sorting : List (String × Int) := [])
    (limit : LimitArg := .bool false) (skip : Nat := 0) :
    Except MErr FindResult :=
  match FindCursor st collectionName query projection sorting limit skip with
  | .error e => .error e
  | .ok result =>
    if limit = LimitArg.bool true then .ok (.single result.head?) else .ok (.list result)

/-! ## Remaining facade operations -/

/-- Driver handle confirming an insertion. -/
structure InsertResult where
  acknowledged : Bool
  insertedId : BVal
  deriving DecidableEq, Repr

/-- `InsertOne`: persists the document; the driver assigns a generated
ObjectId (`genId`) when the document lacks `_id`, and the handle reports the
inserted id. -/
def InsertOne (st : ModuleState) (collectionName : String) (document : Doc)
    (genId : Nat := 0) : ModuleState × Except MErr InsertResult :=
  match st.DB with
  | none => (st, .error .notConnected)
  | some db =>
    let doc := if (getField document "_id").isSome then document
               else ("_id", BVal.oid genId) :: document
    ({ st with DB := some (db.insertInto collectionName doc) },
     .ok ⟨true, (getField doc "_id").getD (BVal.oid genId)⟩)

/-- `InsertMany`: persists each document in order. (Generated ids for
documents lacking `_id` are not modelled; no caller in this repository
inserts id-less documents.) -/
def InsertMany (st : ModuleState) (collectionName : String) (documents : List Doc) :
    ModuleState × Except MErr Nat :=
  match st.DB with
  | none => (st, .error .notConnected)
  | some db =>
    ({ st with DB := some (documents.foldl (fun a d => a.insertInto collectionName d) db) },
     .ok documents.length)

/-- Remove the first document satisfying `p`. -/
def removeFirst (p : Doc → Bool) : List Doc → List Doc
  | [] => []
  | d :: ds => if p d then ds else d :: removeFirst p ds

/-- `DeleteOne`: deletes the first matching document, reporting the count. -/
def DeleteOne (st : ModuleState) (collectionName : String) (query : Query) :
    ModuleState × Except MErr Nat :=
  match st.DB with
  | none => (st, .error .notConnected)
  | some db =>
    let docs := db.getColl collectionName
    ({ st with DB := some (db.putColl collectionName
        (removeFirst (fun d => queryMatches query d) docs)) },
     .ok (if docs.any (fun d => queryMatches query d) then 1 else 0))

/-- `DeleteMany`: deletes every matching document. -/
def DeleteMany (st : ModuleState) (collectionName : String) (query : Query) :
    ModuleState × Except MErr Nat :=
  match st.DB with
  | none => (st, .error .notConnected)
  | some db =>
    let docs := db.getColl collectionName
    ({ st with DB := some (db.putColl collectionName
        (docs.filter (fun d => !(queryMatches query d)))) },
     .ok (docs.filter (fun d => queryMatches query d)).length)

/-- The `$set` fragment of the update language (the only update shape this
facade's callers would use; no caller in this repository updates at all). -/
abbrev UpdateSpec := List (String × BVal)

/-- Set field `k` to `v`, appending the field when absent. -/
def setField (d : Doc) (k : String) (v : BVal) : Doc :=
  if d.any (fun p => p.1 == k) then d.map (fun p => if p.1 == k then (k, v) else p)
  else d ++ [(k, v)]

/-- Apply a `$set` update document. -/
def applyUpdate (u : UpdateSpec) (d : Doc) : Doc :=
  u.foldl (fun d p => setField d p.1 p.2) d

/-- Update the first document satisfying `p`. -/
def updateFirst (p : Doc → Bool) (f : Doc → Doc) : List Doc → List Doc
  | [] => []
  | d :: ds => if p d then f d :: ds else d :: updateFirst p f ds

/-- `UpdateOne`: applies the update to the first matching document. -/
def UpdateOne (st : ModuleState) (collectionName : String) (query : Query)
    (update : UpdateSpec) : ModuleState × Except MErr Nat :=
  match st.DB with
  | none => (st, .error .notConnected)
  | some db =>
    let docs := db.getColl collectionName
    ({ st with DB := some (db.putColl collectionName
        (updateFirst (fun d => queryMatches query d) (applyUpdate update) docs)) },
     .ok (if docs.any (fun d => queryMatches query d) then 1 else 0))

/-- `UpdateMany`: applies the update to every matching document. -/
def UpdateMany (st : ModuleState) (collectionName : String) (query : Query)
    (update : UpdateSpec) : ModuleState × Except MErr Nat :=
  match st.DB with
  | none => (st, .error .notConnected)
  | some db =>
    let docs := db.getColl collectionName
    ({ st with DB := some (db.putColl collectionName
        (docs.map (fun d => if queryMatches query d then applyUpdate update d else d))) },
     .ok (docs.filter (fun d => queryMatches query d)).length)

/-- `Count`: counts the matching documents, capped by the limit option when
the limit argument is truthy. -/
def Count (st : ModuleState) (collectionName : String) (query : Query)
    (limit : LimitArg := .bool false) : Except MErr Nat :=
  match Collection st collectionName with
  | .error e => .error e
  | .ok docs =>
    let c := (docs.filter (fun d => queryMatches query d)).length
    if limit.truthy then .ok (min limit.effective c) else .ok c

/-- `Distinct`: the distinct values of `field` among matching documents.
(MongoDB's flattening of array values is not modelled; unused here.) -/
def Distinct (st : ModuleState) (collectionName : String) (field : String)
    (query : Query) : Except MErr (List BVal) :=
  match Collection st collectionName with
  | .error e => .error e
  | .ok docs =>
    .ok (((docs.filter (fun d => queryMatches query d)).filterMap
      (fun d => getField d field)).dedup)

/-- An aggregation pipeline, modelled as stages transforming document lists. -/
abbrev AggPipeline := List (List Doc → List Doc)

/-- `Aggregate`: runs the pipeline over the collection, materialized. -/
def Aggregate (st : ModuleState) (collectionName : String)
    (query_aggregate : AggPipeline) : Except MErr (List Doc) :=
  match Collection st collectionName with
  | .error e => .error e
  | .ok docs => .ok (query_aggregate.foldl (fun ds f => f ds) docs)

/-- `Aggregate_cursor`: same pipeline, returned as a (modelled) cursor. -/
def Aggregate_cursor (st : ModuleState) (collectionName : String)
    (query_aggregate : AggPipeline) : Except MErr (List Doc) :=
  match Collection st collectionName with
  | .error e => .error e
  | .ok docs => .ok (query_aggregate.foldl (fun ds f => f ds) docs)

/-- `CreateIndex`: returns the generated index name. (Indexes influence no
observable behavior modelled here; no caller in this repository uses them.) -/
def CreateIndex (st : ModuleState) (collectionName : String)
    (indexData : List (String × Int) := []) : Except MErr String :=
  match Collection st collectionName with
  | .error _ => .error .notConnected
  | .ok _ =>
    .ok (String.intercalate "_" (indexData.map (fun p => p.1 ++ "_" ++ toString p.2)))

/-- `Stats`: collection statistics, modelled as the document count. -/
def Stats (st : ModuleState) (collectionName : String) : Except MErr Nat :=
  match Collection st collectionName with
  | .error e => .error e
  | .ok docs => .ok docs.length

/-- `CollectionExist`: reads `DB.listCollections` WITHOUT the `if (!DB)`
guard the other operations have; with no connection the property access on
the undefined `DB` throws a TypeError instead of rejecting `"Not connected"`. -/
def CollectionExist (st : ModuleState) (collectionName : String) : Except MErr Bool :=
  match st.DB with
  | none => .error .typeError
  | some db => .ok (db.colls.any (fun p => p.1 == collectionName))

/-! ## ObjectId parsing (`new ObjectId(string)`) -/

/-- Value of a hexadecimal digit, if `c` is one. -/
def hexDigit? (c : Char) : Option Nat :=
  if '0' ≤ c ∧ c ≤ '9' then some (c.toNat - '0'.toNat)
  else if 'a' ≤ c ∧ c ≤ 'f' then some (c.toNat - 'a'.toNat + 10)
  else if 'A' ≤ c ∧ c ≤ 'F' then some (c.toNat - 'A'.toNat + 10)
  else none

/-- `new ObjectId(s)`: accepts a 24-character hexadecimal string, yielding
its numeric value; any other string throws (modelled as `none`). -/
def parseOid? (s : String) : Option Nat :=
  if s.length == 24 then
    s.data.foldl (fun acc c => acc.bind (fun n => (hexDigit? c).map (fun d => n * 16 + d)))
      (some 0)
  else none

/-! ## Route handlers

Each handler is modelled with the environment made explicit: the connect
outcome `co` the defensive `Connect` would see were it to reach the driver,
and for the insert handler the freshly generated ObjectId and the current
time. Each handler records the facade data calls it issues, so that
"the handler still performed its query" is a provable statement. -/

/-- One data call issued against the facade. -/
inductive DbCall where
  | findCall : String → Query → DbCall
  | insertCall : String → Doc → DbCall
  deriving DecidableEq, Repr

/-- Outcome of one handler run: the resulting module state, the facade data
calls issued, and the handler's value or uncaught error. -/
structure HandlerOut (α : Type) where
  state : ModuleState
  queries : List DbCall
  result : Except MErr α

/-- The `{title: {$regex: title, $options: "$i"}}` query document. -/
def titleQuery (title : String) : Query := [("title", .regex title "$i")]

/-- The `{title: 1, _id: 1}` projection. -/
def titleProjection : List (String × Int) := [("title", 1), ("_id", 1)]

/-- `obtenerPeliculasPorTitulo`: regex title search over `movies`.
The `try { await Connect } catch { log }` swallows any connect failure. -/
def obtenerPeliculasPorTitulo (st : ModuleState) (conf : Config) (co : ConnectOutcome)
    (title : String) : HandlerOut (List Doc) :=
  let st1 := (Connect conf st co).1
  { state := st1
    queries := [.findCall "movies" (titleQuery title)]
    result := (Find st1 "movies" (titleQuery title) titleProjection).map FindResult.asList }

/-- The `{_id: new ObjectId(movieId)}` query document. -/
def detalleQuery (v : Nat) : Query := [("_id", .eqVal (.oid v))]

/-- The `{title: 1, year: 1, directors: 1, plot: 1}` projection. -/
def detalleProjection : List (String × Int) :=
  [("title", 1), ("year", 1), ("directors", 1), ("plot", 1)]

/-- `obtenerDetalle`: exact-id lookup over `movies`, returning
`respuesta[0]` of the result array. -/
def obtenerDetalle (st : ModuleState) (conf : Config) (co : ConnectOutcome)
    (movieId : String) : HandlerOut (Option Doc) :=
  let st1 := (Connect conf st co).1
  match parseOid? movieId with
  | none => { state := st1, queries := [], result := .error .malformedId }
  | some v =>
    { state := st1
      queries := [.findCall "movies" (detalleQuery v)]
      result := (Find st1 "movies" (detalleQuery v) detalleProjection).map
        (fun r => r.asList.head?) }

/-- The `{movie_id: new ObjectId(movieId)}` query document. -/
def comentariosQuery (v : Nat) : Query := [("movie_id", .eqVal (.oid v))]

/-- The `{name: 1, email: 1, text: 1, date: 1}` projection. -/
def comentariosProjection : List (String × Int) :=
  [("name", 1), ("email", 1), ("text", 1), ("date", 1)]

/-- `obtenerComentarios`: comments whose `movie_id` equals the parsed id. -/
def obtenerComentarios (st : ModuleState) (conf : Config) (co : ConnectOutcome)
    (movieId : String) : HandlerOut (List Doc) :=
  let st1 := (Connect conf st co).1
  match parseOid? movieId with
  | none => { state := st1, queries := [], result := .error .malformedId }
  | some v =>
    { state := st1
      queries := [.findCall "comments" (comentariosQuery v)]
      result := (Find st1 "comments" (comentariosQuery v) comentariosProjection).map
        FindResult.asList }

/-- The comment document literal built by `insertarComentarios`:
fresh `_id`, caller fields, parsed `movie_id`, current date. -/
def nuevoComentario (nameLlega emailLlega textLlega : String) (mid freshId now : Nat) : Doc :=
  [("_id", .oid freshId), ("name", .str nameLlega), ("email", .str emailLlega),
   ("movie_id", .oid mid), ("text", .str textLlega), ("date", .date now)]

/-- `insertarComentarios`: builds the comment document (throwing on a
malformed `movieId`) and inserts it into `comments`. -/
def insertarComentarios (st : ModuleState) (conf : Config) (co : ConnectOutcome)
    (nameLlega emailLlega movieId textLlega : String) (freshId now : Nat) :
    HandlerOut InsertResult :=
  let st1 := (Connect conf st co).1
  match parseOid? movieId with
  | none => { state := st1, queries := [], result := .error .malformedId }
  | some mid =>
    let comentario := nuevoComentario nameLlega emailLlega textLlega mid freshId now
    let step := InsertOne st1 "comments" comentario freshId
    { state := step.1
      queries := [.insertCall "comments" comentario]
      result := step.2 }

/-- A response body sent by a route: a bare string or a JSON document list. -/
inductive RouteBody where
  | text : String → RouteBody
  | docs : List Doc → RouteBody
  deriving DecidableEq, Repr

/-- The `GET /getMoviesByTitle` route: a missing (or JavaScript-falsy) `title`
short-circuits to the body `"Error"`; `response.send` uses the default HTTP
status 200 in both branches. -/
def getMoviesByTitleRoute (st : ModuleState) (conf : Config) (co : ConnectOutcome)
    (title : Option String) : HandlerOut (Nat × RouteBody) :=
  match title with
  | some t =>
    if t = "" then { state := st, queries := [], result := .ok (200, .text "Error") }
    else
      let h := obtenerPeliculasPorTitulo st conf co t
      { state := h.state, queries := h.queries,
        result := h.result.map (fun ds => (200, .docs ds)) }
  | none => { state := st, queries := [], result := .ok (200, .text "Error") }

/-! ## Specification-side readings of the endpoint contracts

Each `...Claim` definition follows the literal words of the specification
sentence it is compared with; each remaining definition is the direct
description of what the code computes, to be proved equal to the embedded
pipeline. -/

/-- Claim reading of movies-by-title: movies whose `title` case-insensitively
contains the argument as a literal substring, reduced to `{_id, title}`. -/
def moviesByTitleClaim (db : Database) (t : String) : List Doc :=
  ((db.getColl "movies").filter (fun d =>
    match getField d "title" with
    | some (.str s) => containsCI s t
    | _ => false)).map (applyProjection titleProjection)

/-- What the code computes for movies-by-title: movies whose `title` matches
the argument as a case-insensitive regular expression, projected to
`{_id, title}`. -/
def moviesByTitleRegex (db : Database) (t : String) : List Doc :=
  ((db.getColl "movies").filter (fun d =>
    match getField d "title" with
    | some (.str s) => regexMatch t "$i" s
    | _ => false)).map (applyProjection titleProjection)

/-- Claim reading of movie-details: the matching movie reduced to exactly the
four projected fields (no `_id`), or `undefined`. -/
def detalleClaim (db : Database) (v : Nat) : Option Doc :=
  (((db.getColl "movies").filter (fun d => getField d "_id" == some (.oid v))).head?).map
    (onlyFields ["title", "year", "directors", "plot"])

/-- What the code computes for movie-details: the first movie whose `_id`
equals the parsed id, under the inclusion projection (which retains `_id`),
or `none` when no movie matches. -/
def detallePorId (db : Database) (v : Nat) : Option Doc :=
  (((db.getColl "movies").filter (fun d => getField d "_id" == some (.oid v))).head?).map
    (applyProjection detalleProjection)

/-- Claim reading of comments-by-movie: the comments with the given
`movie_id`, each reduced to exactly `{name, email, text, date}` (no `_id`). -/
def comentariosClaim (db : Database) (v : Nat) : List Doc :=
  ((db.getColl "comments").filter (fun d => getField d "movie_id" == some (.oid v))).map
    (onlyFields ["name", "email", "text", "date"])

/-- What the code computes for comments-by-movie: the comments with the given
`movie_id`, under the inclusion projection (which retains `_id`). -/
def comentariosPorPelicula (db : Database) (v : Nat) : List Doc :=
  ((db.getColl "comments").filter (fun d => getField d "movie_id" == some (.oid v))).map
    (applyProjection comentariosProjection)

/-- The matching pipeline of `Find` before limiting and projecting:
filter, sort, skip. -/
def matchedPipeline (db : Database) (collectionName : String) (query : Query)
    (sorting : List (String × Int)) (skip : Nat) : List Doc :=
  (sortDocs sorting ((db.getColl collectionName).filter
    (fun d => queryMatches query d))).drop skip

/-! ## Concrete fixtures -/

/-- A configuration value for concrete runs. -/
def confC : Config := ⟨"mongodb://127.0.0.1:27017", "sample_mflix"⟩

/-- A movie whose title `"abc"` is matched by the regex `"a.c"` though it
does not contain `"a.c"` as a substring. -/
def movieA : Doc := [("_id", .oid 1), ("title", .str "abc")]

/-- A store holding only `movieA`. -/
def mdbC : Database := ⟨[("movies", [movieA]), ("comments", [])]⟩

/-- A connected module state over `mdbC`. -/
def stC : ModuleState := ⟨some mdbC, true, false, 1⟩

/-- A movie carrying all four detail fields (plus its mandatory `_id`). -/
def movieB : Doc :=
  [("_id", .oid 2), ("title", .str "Inception"), ("year", .num 2010),
   ("directors", .strArr ["Nolan"]), ("plot", .str "Dreams")]

/-- A second movie, to exercise skip/limit. -/
def movieC : Doc :=
  [("_id", .oid 3), ("title", .str "Memento"), ("year", .num 2000),
   ("directors", .strArr ["Nolan"]), ("plot", .str "Backwards")]

/-- A stored comment on `movieB`. -/
def commentX : Doc :=
  [("_id", .oid 9), ("name", .str "Ana"), ("email", .str "ana@x.com"),
   ("movie_id", .oid 2), ("text", .str "great film"), ("date", .date 100)]

/-- A store holding `movieB`, `movieC` and `commentX`. -/
def mdbD : Database := ⟨[("movies", [movieB, movieC]), ("comments", [commentX])]⟩

/-- A connected module state over `mdbD`. -/
def stD : ModuleState := ⟨some mdbD, true, false, 1⟩

/-- The module state before any connection was established. -/
def stDisc : ModuleState := ⟨none, false, false, 0⟩

/-- The 24-hex-character id string parsing to the ObjectId value 2. -/
def oid2Str : String := "000000000000000000000002"

/-! ## Shared lemmas -/

/-- `Connect` returns immediately, with no state change, when `DB` is set. -/
theorem Connect_of_some {st : ModuleState} {db : Database} (conf : Config) (co : ConnectOutcome)
    (h : st.DB = some db) : Connect conf st co = (st, .ok ()) := by
  simp [Connect, h]

/-- `Collection` yields the collection contents when `DB` is set. -/
theorem Collection_of_some {st : ModuleState} {db : Database} (collectionName : String)
    (h : st.DB = some db) : Collection st collectionName = .ok (db.getColl collectionName) := by
  simp [Collection, h]

/-- Head of a one-element truncation is the head. -/
theorem head?_take1 {a : Type} (l : List a) : (l.take 1).head? = l.head? := by
  cases l <;> simp

/-- Writing a collection then reading it back yields what was written. -/
theorem getColl_putColl (db : Database) (c : String) (docs : List Doc) :
    (db.putColl c docs).getColl c = docs := by
  simp [Database.getColl, Database.putColl, List.find?]

/-- Inserting appends the document to the collection. -/
theorem getColl_insertInto (db : Database) (c : String) (d : Doc) :
    (db.insertInto c d).getColl c = db.getColl c ++ [d] := by
  simp [Database.insertInto, getColl_putColl]

/-- `Find` with the default sort/limit/skip over a connected state is
filter-then-project. -/
theorem Find_default_of_some {st : ModuleState} {db : Database} (collectionName : String)
    (query : Query) (projection : List (String × Int)) (h : st.DB = some db) :
    Find st collectionName query projection =
      .ok (.list (((db.getColl collectionName).filter (fun d => queryMatches query d)).map
        (applyProjection projection))) := by
  simp [Find, FindCursor, Collection_of_some collectionName h, sortDocs, LimitArg.truthy]

/-- The title query matches exactly the documents whose `title` string field
satisfies the case-insensitive regex. -/
theorem queryMatches_titleQuery (t : String) (d : Doc) :
    queryMatches (titleQuery t) d =
      match getField d "title" with
      | some (.str s) => regexMatch t "$i" s
      | _ => false := by
  simp [queryMatches, titleQuery, condMatches, List.all]

/-- A one-field equality query matches exactly on that field value. -/
theorem queryMatches_eqVal (f : String) (v : BVal) (d : Doc) :
    queryMatches [(f, .eqVal v)] d = (getField d f == some v) := by
  simp [queryMatches, condMatches, List.all]

/-- `obtenerComentarios` over a connected state computes
`comentariosPorPelicula` of the parsed id. -/
theorem obtenerComentarios_result {st : ModuleState} {db : Database} (conf : Config)
    (co : ConnectOutcome) (movieId : String) (v : Nat) (h : st.DB = some db)
    (hid : parseOid? movieId = some v) :
    (obtenerComentarios st conf co movieId).result = .ok (comentariosPorPelicula db v) := by
  have h1 : (Connect conf st co).1 = st := by rw [Connect_of_some conf co h]
  simp [obtenerComentarios, h1, hid, Find_default_of_some _ _ _ h, comentariosPorPelicula,
        comentariosQuery, queryMatches_eqVal, FindResult.asList, Except.map]

/-! ## Claim C1 — movies-by-title -/

/-- C1 counterexample: the claim says movies-by-title returns exactly the
movies whose title case-insensitively contains the argument as a substring.
With the store holding one movie titled `"abc"` and the title parameter
`"a.c"`, the code returns that movie (the parameter is passed to the store
as a regular expression, whose `.` matches `b`), while no title contains
`"a.c"` as a substring, so the claimed result is empty. -/
theorem moviesByTitle_substring_counterexample :
    (obtenerPeliculasPorTitulo stC confC .errC "a.c").result
      ≠ .ok (moviesByTitleClaim mdbC "a.c") := by decide

/-- C1 (amended): for every connected state, movies-by-title returns exactly
the movies whose `title` matches the title parameter interpreted as a
case-insensitive regular expression (not literal substring containment;
the two coincide for titles free of regex metacharacters), each reduced to
`{_id, title}`. -/
theorem obtenerPeliculasPorTitulo_regex_spec (st : ModuleState) (db : Database)
    (conf : Config) (co : ConnectOutcome) (t : String) (h : st.DB = some db) :
    (obtenerPeliculasPorTitulo st conf co t).result = .ok (moviesByTitleRegex db t) := by
  have h1 : (Connect conf st co).1 = st := by rw [Connect_of_some conf co h]
  simp [obtenerPeliculasPorTitulo, h1, Find_default_of_some _ _ _ h, moviesByTitleRegex,
        queryMatches_titleQuery, FindResult.asList, Except.map]

/-- Witness for C1 at the concrete store `mdbC`. -/
theorem obtenerPeliculasPorTitulo_regex_spec_witness :
    (obtenerPeliculasPorTitulo stC confC .errC "a.c").result
      = .ok (moviesByTitleRegex mdbC "a.c") :=
  obtenerPeliculasPorTitulo_regex_spec stC mdbC confC .errC "a.c" (by decide)

/-! ## Claim C2 — add-comment -/

/-- C2: `insertarComentarios` persists the comment document built from the
caller fields with the freshly generated `_id`, `movie_id` equal to the
parsed `movieId`, and `date` equal to the insertion-time timestamp `now`;
the fresh `_id` is unique in the collection; and a subsequent
`obtenerComentarios(movieId)` returns `comentariosPorPelicula` of the new
store, which contains the (projected) new comment. -/
theorem insertarComentarios_spec (st : ModuleState) (db : Database) (conf : Config)
    (co co' : ConnectOutcome) (nameLlega emailLlega movieId textLlega : String)
    (freshId now v : Nat) (h : st.DB = some db) (hid : parseOid? movieId = some v)
    (hfresh : ∀ d ∈ db.getColl "comments", getField d "_id" ≠ some (.oid freshId)) :
    (insertarComentarios st conf co nameLlega emailLlega movieId textLlega freshId now).result
        = .ok ⟨true, .oid freshId⟩ ∧
    (insertarComentarios st conf co nameLlega emailLlega movieId textLlega freshId now).state.DB
        = some (db.insertInto "comments"
            (nuevoComentario nameLlega emailLlega textLlega v freshId now)) ∧
    ((db.insertInto "comments"
        (nuevoComentario nameLlega emailLlega textLlega v freshId now)).getColl "comments").filter
        (fun d => getField d "_id" == some (.oid freshId))
        = [nuevoComentario nameLlega emailLlega textLlega v freshId now] ∧
    (obtenerComentarios
        (insertarComentarios st conf co nameLlega emailLlega movieId textLlega freshId now).state
        conf co' movieId).result
        = .ok (comentariosPorPelicula
            (db.insertInto "comments"
              (nuevoComentario nameLlega emailLlega textLlega v freshId now)) v) ∧
    applyProjection comentariosProjection
        (nuevoComentario nameLlega emailLlega textLlega v freshId now)
      ∈ comentariosPorPelicula
          (db.insertInto "comments"
            (nuevoComentario nameLlega emailLlega textLlega v freshId now)) v := by
  have h1 : (Connect conf st co).1 = st := by rw [Connect_of_some conf co h]
  have hins : insertarComentarios st conf co nameLlega emailLlega movieId textLlega freshId now
      = { state := { st with DB := some (db.insertInto "comments"
            (nuevoComentario nameLlega emailLlega textLlega v freshId now)) }
          queries := [.insertCall "comments"
            (nuevoComentario nameLlega emailLlega textLlega v freshId now)]
          result := .ok ⟨true, .oid freshId⟩ } := by
    simp [insertarComentarios, h1, hid, InsertOne, h, nuevoComentario, getField]
  have hfilter : ((db.insertInto "comments"
      (nuevoComentario nameLlega emailLlega textLlega v freshId now)).getColl "comments").filter
      (fun d => getField d "_id" == some (.oid freshId))
      = [nuevoComentario nameLlega emailLlega textLlega v freshId now] := by
    rw [getColl_insertInto, List.filter_append]
    have hnil : (db.getColl "comments").filter
        (fun d => getField d "_id" == some (.oid freshId)) = [] := by
      rw [List.filter_eq_nil_iff]
      intro d hd
      simpa using hfresh d hd
    rw [hnil]
    simp [nuevoComentario, getField]
  refine ⟨by rw [hins], by rw [hins], hfilter, ?_, ?_⟩
  · rw [hins]
    exact obtenerComentarios_result conf co' movieId v rfl hid
  · unfold comentariosPorPelicula
    rw [getColl_insertInto, List.filter_append]
    have hmem : (List.filter (fun d => getField d "movie_id" == some (.oid v))
        [nuevoComentario nameLlega emailLlega textLlega v freshId now])
        = [nuevoComentario nameLlega emailLlega textLlega v freshId now] := by
      simp [nuevoComentario, getField]
    rw [List.map_append, hmem]
    simp

/-- Witness for C2: inserting a concrete comment into the concrete store. -/
theorem insertarComentarios_spec_witness :
    (insertarComentarios stD confC .errC "Ana" "ana@x.com" oid2Str "great film" 5 777).result
        = .ok ⟨true, .oid 5⟩ ∧
    (insertarComentarios stD confC .errC "Ana" "ana@x.com" oid2Str "great film" 5 777).state.DB
        = some (mdbD.insertInto "comments"
            (nuevoComentario "Ana" "ana@x.com" "great film" 2 5 777)) ∧
    ((mdbD.insertInto "comments"
        (nuevoComentario "Ana" "ana@x.com" "great film" 2 5 777)).getColl "comments").filter
        (fun d => getField d "_id" == some (.oid 5))
        = [nuevoComentario "Ana" "ana@x.com" "great film" 2 5 777] ∧
    (obtenerComentarios
        (insertarComentarios stD confC .errC "Ana" "ana@x.com" oid2Str "great film" 5 777).state
        confC .badDb oid2Str).result
        = .ok (comentariosPorPelicula
            (mdbD.insertInto "comments"
              (nuevoComentario "Ana" "ana@x.com" "great film" 2 5 777)) 2) ∧
    applyProjection comentariosProjection (nuevoComentario "Ana" "ana@x.com" "great film" 2 5 777)
      ∈ comentariosPorPelicula
          (mdbD.insertInto "comments"
            (nuevoComentario "Ana" "ana@x.com" "great film" 2 5 777)) 2 :=
  insertarComentarios_spec stD mdbD confC .errC .badDb "Ana" "ana@x.com" oid2Str "great film"
    5 777 2 (by decide) (by decide) (by decide)

/-! ## Claim C3 — movie-details -/

/-- C3 counterexample: the claim says movie-details returns an object
consisting of exactly the four projected fields. On a store holding a movie
with all four fields, the returned object additionally carries `_id` (the
inclusion projection `{title: 1, year: 1, directors: 1, plot: 1}` retains
`_id` by default), so it differs from the four-field object of the claim. -/
theorem obtenerDetalle_fields_counterexample :
    (obtenerDetalle stD confC .errC oid2Str).result ≠ .ok (detalleClaim mdbD 2) := by decide

/-- C3 (amended): for every connected state and well-formed id,
movie-details returns the first movie whose `_id` equals the parsed id —
reduced to the four projected fields plus the default-retained `_id` — and
`undefined` (`none`) when no movie with that id exists. -/
theorem obtenerDetalle_spec (st : ModuleState) (db : Database) (conf : Config)
    (co : ConnectOutcome) (movieId : String) (v : Nat) (h : st.DB = some db)
    (hid : parseOid? movieId = some v) :
    (obtenerDetalle st conf co movieId).result = .ok (detallePorId db v) := by
  have h1 : (Connect conf st co).1 = st := by rw [Connect_of_some conf co h]
  simp [obtenerDetalle, h1, hid, Find_default_of_some _ _ _ h, detallePorId, detalleQuery,
        queryMatches_eqVal, FindResult.asList, List.head?_map, Except.map]

/-- Witness for C3 at the concrete store `mdbD`. -/
theorem obtenerDetalle_spec_witness :
    (obtenerDetalle stD confC .errC oid2Str).result = .ok (detallePorId mdbD 2) :=
  obtenerDetalle_spec stD mdbD confC .errC oid2Str 2 (by decide) (by decide)

/-! ## Claim C4 — comments-by-movie -/

/-- C4 counterexample: the claim says each returned comment has only the
`name`, `email`, `text` and `date` fields. On a store holding one comment,
each returned document additionally carries `_id` (default inclusion-
projection retention), so the result differs from the claimed one. -/
theorem obtenerComentarios_fields_counterexample :
    (obtenerComentarios stD confC .errC oid2Str).result
      ≠ .ok (comentariosClaim mdbD 2) := by decide

/-- C4 (amended): for every connected state and well-formed id,
comments-by-movie returns all and only the comments whose `movie_id` equals
the parsed id, in collection order, each reduced to
`{name, email, text, date}` plus the default-retained `_id`. -/
theorem obtenerComentarios_spec (st : ModuleState) (db : Database) (conf : Config)
    (co : ConnectOutcome) (movieId : String) (v : Nat) (h : st.DB = some db)
    (hid : parseOid? movieId = some v) :
    (obtenerComentarios st conf co movieId).result = .ok (comentariosPorPelicula db v) :=
  obtenerComentarios_result conf co movieId v h hid

/-- Witness for C4 at the concrete store `mdbD`. -/
theorem obtenerComentarios_spec_witness :
    (obtenerComentarios stD confC .errC oid2Str).result = .ok (comentariosPorPelicula mdbD 2) :=
  obtenerComentarios_spec stD mdbD confC .errC oid2Str 2 (by decide) (by decide)

/-! ## Claim C5 — Find limit semantics -/

/-- C5: for every connected state, collection, filter, projection, sort and
skip, `Find` with the `limit === true` sentinel returns the single first
matching document after sort and skip (projected) — or `undefined` (`none`)
when nothing matches — rather than a one-element list; with `limit = false`
it returns the whole matching sequence after skip; and with a positive
numeric limit it returns the matching sequence after skip truncated to
`limit` documents. -/
theorem Find_limit_spec (st : ModuleState) (db : Database) (collectionName : String)
    (query : Query) (projection sorting : List (String × Int)) (skip : Nat)
    (h : st.DB = some db) :
    Find st collectionName query projection sorting (.bool true) skip
      = .ok (.single (((matchedPipeline db collectionName query sorting skip).head?).map
          (applyProjection projection))) ∧
    Find st collectionName query projection sorting (.bool false) skip
      = .ok (.list ((matchedPipeline db collectionName query sorting skip).map
          (applyProjection projection))) ∧
    ∀ n : Nat, 0 < n →
      Find st collectionName query projection sorting (.num n) skip
        = .ok (.list (((matchedPipeline db collectionName query sorting skip).take n).map
            (applyProjection projection))) := by
  refine ⟨?_, ?_, ?_⟩
  · simp [Find, FindCursor, Collection_of_some _ h, matchedPipeline, LimitArg.truthy,
          LimitArg.effective, head?_take1, List.head?_drop, List.getElem?_map]
  · simp [Find, FindCursor, Collection_of_some _ h, matchedPipeline, LimitArg.truthy]
  · intro n hn
    have hne : (n != 0) = true := by simpa using Nat.pos_iff_ne_zero.mp hn
    have heff : LimitArg.effective (.num n) = n := by
      by_cases h1 : n = 1 <;> simp [LimitArg.effective, h1]
    simp [Find, FindCursor, Collection_of_some _ h, matchedPipeline, LimitArg.truthy, hne, heff]

/-- Witness for C5 at the concrete store `mdbD` with skip 1. -/
theorem Find_limit_spec_witness :
    Find stD "movies" [] [] [] (.bool true) 1
      = .ok (.single (((matchedPipeline mdbD "movies" [] [] 1).head?).map
          (applyProjection []))) ∧
    Find stD "movies" [] [] [] (.bool false) 1
      = .ok (.list ((matchedPipeline mdbD "movies" [] [] 1).map (applyProjection []))) ∧
    Find stD "movies" [] [] [] (.num 2) 1
      = .ok (.list (((matchedPipeline mdbD "movies" [] [] 1).take 2).map
          (applyProjection []))) := by
  have h := Find_limit_spec stD mdbD "movies" [] [] [] 1 (by decide)
  exact ⟨h.1, h.2.1, h.2.2 2 (by decide)⟩

/-! ## Claim C6 — operations with no active connection -/

/-- C6 counterexample: the claim says every facade operation, including
`collectionExists`, fails with the NotConnectedError when no connection is
active; but `CollectionExist` lacks the `if (!DB)` guard and instead fails
with the TypeError of accessing the undefined handle. -/
theorem collectionExist_guard_counterexample :
    CollectionExist stDisc "movies" ≠ .error .notConnected := by decide

/-- C6 (amended): with no active connection every facade document-set
operation except `collectionExists` fails with the NotConnectedError;
`collectionExists`, lacking the guard, fails with a TypeError from the
property access on the undefined database handle. -/
theorem facade_notConnected_spec (st : ModuleState) (h : st.DB = none)
    (collectionName field : String) (query : Query) (projection sorting : List (String × Int))
    (limit limc : LimitArg) (skip : Nat) (document : Doc) (documents : List Doc)
    (update : UpdateSpec) (query_aggregate : AggPipeline) (genId : Nat)
    (indexData : List (String × Int)) :
    Find st collectionName query projection sorting limit skip = .error .notConnected ∧
    (InsertOne st collectionName document genId).2 = .error .notConnected ∧
    (InsertMany st collectionName documents).2 = .error .notConnected ∧
    (DeleteOne st collectionName query).2 = .error .notConnected ∧
    (DeleteMany st collectionName query).2 = .error .notConnected ∧
    (UpdateOne st collectionName query update).2 = .error .notConnected ∧
    (UpdateMany st collectionName query update).2 = .error .notConnected ∧
    Count st collectionName query limc = .error .notConnected ∧
    Distinct st collectionName field query = .error .notConnected ∧
    Aggregate st collectionName query_aggregate = .error .notConnected ∧
    Aggregate_cursor st collectionName query_aggregate = .error .notConnected ∧
    CreateIndex st collectionName indexData = .error .notConnected ∧
    Stats st collectionName = .error .notConnected ∧
    CollectionExist st collectionName = .error .typeError := by
  simp [Find, FindCursor, Collection, InsertOne, InsertMany, DeleteOne, DeleteMany, UpdateOne,
        UpdateMany, Count, Distinct, Aggregate, Aggregate_cursor, CreateIndex, Stats,
        CollectionExist, h]

/-- Witness for C6 at the never-connected module state. -/
theorem facade_notConnected_spec_witness :
    Find stDisc "movies" [] [] [] (.bool false) 0 = .error .notConnected ∧
    (InsertOne stDisc "comments" [] 0).2 = .error .notConnected ∧
    (InsertMany stDisc "comments" []).2 = .error .notConnected ∧
    (DeleteOne stDisc "movies" []).2 = .error .notConnected ∧
    (DeleteMany stDisc "movies" []).2 = .error .notConnected ∧
    (UpdateOne stDisc "movies" [] []).2 = .error .notConnected ∧
    (UpdateMany stDisc "movies" [] []).2 = .error .notConnected ∧
    Count stDisc "movies" [] (.bool false) = .error .notConnected ∧
    Distinct stDisc "movies" "title" [] = .error .notConnected ∧
    Aggregate stDisc "movies" [] = .error .notConnected ∧
    Aggregate_cursor stDisc "movies" [] = .error .notConnected ∧
    CreateIndex stDisc "movies" [] = .error .notConnected ∧
    Stats stDisc "movies" = .error .notConnected ∧
    CollectionExist stDisc "movies" = .error .typeError :=
  facade_notConnected_spec stDisc (by decide) "movies" "title" [] [] [] (.bool false)
    (.bool false) 0 [] [] [] [] 0 []

/-! ## Claim C7 — movies-by-title with no title parameter -/

/-- C7: invoking the movies-by-title route with no `title` query parameter
sends the literal string `"Error"` with the default HTTP status 200 (not an
error status), performs no facade data call, and leaves the module state
untouched. -/
theorem getMoviesByTitle_missing_title_spec (st : ModuleState) (conf : Config)
    (co : ConnectOutcome) :
    getMoviesByTitleRoute st conf co none
      = { state := st, queries := [], result := .ok (200, .text "Error") } := rfl

/-! ## Claim C8 — idempotent connect -/

/-- C8: for every configuration pair and driver outcome, after a successful
connect from the unconnected state a second `Connect` call returns
immediately with the state unchanged — in particular it performs no further
underlying connection establishment: the establishment count after both
calls is exactly one more than initially. -/
theorem Connect_idempotent (conf conf' : Config) (st : ModuleState) (db : Database)
    (co : ConnectOutcome) (h : st.DB = none) :
    Connect conf' (Connect conf st (.okC db)).1 co = ((Connect conf st (.okC db)).1, .ok ()) ∧
    ((Connect conf st (.okC db)).1).establishCount = st.establishCount + 1 := by
  simp [Connect, h]

/-- Witness for C8 starting from the never-connected state. -/
theorem Connect_idempotent_witness :
    Connect confC (Connect confC stDisc (.okC mdbC)).1 .errC
      = ((Connect confC stDisc (.okC mdbC)).1, .ok ()) ∧
    ((Connect confC stDisc (.okC mdbC)).1).establishCount = stDisc.establishCount + 1 :=
  Connect_idempotent confC confC stDisc mdbC .errC (by decide)

/-! ## Claim C9 — defensive connect failures are swallowed -/

/-- C9: in each of the four handlers, when the defensive per-request
`Connect` genuinely fails (state unconnected, driver erroring), the failure
is swallowed — the handler still issues its facade data call, and what it
propagates is that call's own NotConnectedError, never the swallowed
ConnectionError. -/
theorem defensive_connect_swallowed (st : ModuleState) (conf : Config)
    (t nameLlega emailLlega movieId textLlega : String) (freshId now v : Nat)
    (h : st.DB = none) (hid : parseOid? movieId = some v) :
    (obtenerPeliculasPorTitulo st conf .errC t).queries = [.findCall "movies" (titleQuery t)] ∧
    (obtenerPeliculasPorTitulo st conf .errC t).result = .error .notConnected ∧
    (obtenerDetalle st conf .errC movieId).queries = [.findCall "movies" (detalleQuery v)] ∧
    (obtenerDetalle st conf .errC movieId).result = .error .notConnected ∧
    (obtenerComentarios st conf .errC movieId).queries
        = [.findCall "comments" (comentariosQuery v)] ∧
    (obtenerComentarios st conf .errC movieId).result = .error .notConnected ∧
    (insertarComentarios st conf .errC nameLlega emailLlega movieId textLlega freshId now).queries
        = [.insertCall "comments" (nuevoComentario nameLlega emailLlega textLlega v freshId now)] ∧
    (insertarComentarios st conf .errC nameLlega emailLlega movieId textLlega freshId now).result
        = .error .notConnected := by
  simp [obtenerPeliculasPorTitulo, obtenerDetalle, obtenerComentarios, insertarComentarios,
        Connect, Find, FindCursor, Collection, InsertOne, h, hid, Except.map]

/-- Witness for C9 with concrete parameters from the unconnected state. -/
theorem defensive_connect_swallowed_witness :
    (obtenerPeliculasPorTitulo stDisc confC .errC "abc").queries
        = [.findCall "movies" (titleQuery "abc")] ∧
    (obtenerPeliculasPorTitulo stDisc confC .errC "abc").result = .error .notConnected ∧
    (obtenerDetalle stDisc confC .errC oid2Str).queries = [.findCall "movies" (detalleQuery 2)] ∧
    (obtenerDetalle stDisc confC .errC oid2Str).result = .error .notConnected ∧
    (obtenerComentarios stDisc confC .errC oid2Str).queries
        = [.findCall "comments" (comentariosQuery 2)] ∧
    (obtenerComentarios stDisc confC .errC oid2Str).result = .error .notConnected ∧
    (insertarComentarios stDisc confC .errC "Ana" "ana@x.com" oid2Str "great film" 5 777).queries
        = [.insertCall "comments" (nuevoComentario "Ana" "ana@x.com" "great film" 2 5 777)] ∧
    (insertarComentarios stDisc confC .errC "Ana" "ana@x.com" oid2Str "great film" 5 777).result
        = .error .notConnected :=
  defensive_connect_swallowed stDisc confC "abc" "Ana" "ana@x.com" oid2Str "great film" 5 777 2
    (by decide) (by decide)

/-! ## Claim C10 — close never clears the handle -/

/-- C10: after a successful connect from the unconnected state, `Close`
succeeds but leaves the `DB` handle set (it clears nothing) while marking
the underlying client closed; hence every subsequent `Connect`, whatever its
configuration or driver outcome, returns immediately without establishing a
new connection — the establishment count stays at one — leaving the system
permanently on the closed connection. -/
theorem connect_close_connect_spec (conf conf' : Config) (st : ModuleState) (db : Database)
    (co : ConnectOutcome) (h : st.DB = none) :
    (Close (Connect conf st (.okC db)).1).2 = .ok () ∧
    ((Close (Connect conf st (.okC db)).1).1).DB = some db ∧
    ((Close (Connect conf st (.okC db)).1).1).clientClosed = true ∧
    Connect conf' (Close (Connect conf st (.okC db)).1).1 co
      = ((Close (Connect conf st (.okC db)).1).1, .ok ()) ∧
    ((Close (Connect conf st (.okC db)).1).1).establishCount = st.establishCount + 1 := by
  simp [Connect, Close, h]

/-- Witness for C10 starting from the never-connected state. -/
theorem connect_close_connect_spec_witness :
    (Close (Connect confC stDisc (.okC mdbC)).1).2 = .ok () ∧
    ((Close (Connect confC stDisc (.okC mdbC)).1).1).DB = some mdbC ∧
    ((Close (Connect confC stDisc (.okC mdbC)).1).1).clientClosed = true ∧
    Connect confC (Close (Connect confC stDisc (.okC mdbC)).1).1 .errC
      = ((Close (Connect confC stDisc (.okC mdbC)).1).1, .ok ()) ∧
    ((Close (Connect confC stDisc (.okC mdbC)).1).1).establishCount
      = stDisc.establishCount + 1 :=
  connect_close_connect_spec confC confC stDisc mdbC .errC (by decide)

end Pelis
